import Mathlib

/-!
Shallow embedding of the `nurst` NES emulator core (6502 CPU interpreter,
memory bus, iNES ROM loader) and proofs about the claims of its
specification.

Machine integers are modelled as `Nat`.  Wrapping arithmetic from the source
(`wrapping_add`, `wrapping_sub`, `&`) is rendered with explicit `% 2^w` or
bitwise masks.  Unchecked Rust integer arithmetic that can overflow its type
(`u16 + 1` at `0xFFFF`, slice indexing out of range) aborts the program in a
debug build; such operations are embedded as `Option`-returning functions
where `none` models the abort.  Fixed-size byte arrays (`[u8; n]`) are
modelled as total functions `Nat → Nat` whose meaningful domain is `< n`,
exactly the indices the source ever uses.
-/

namespace Nurst

/-! ## Bus (src/bus.rs) -/

/-- Bus state: 2 KB work RAM, stub PPU register window, stub APU/IO window,
and the 32 KB cartridge PRG-ROM array, as in `struct Bus`. -/
structure Bus where
  ram : Nat → Nat
  ppu_registers : Nat → Nat
  apu_io : Nat → Nat
  cartridge_rom : Nat → Nat

/-- `Bus::new`: all storage zeroed. -/
def Bus.new : Bus :=
  { ram := fun _ => 0
    ppu_registers := fun _ => 0
    apu_io := fun _ => 0
    cartridge_rom := fun _ => 0 }

/-- `Bus::mem_read`: RAM mirrored on `addr & 0x07FF` below `0x2000`,
PPU window reads 0, PRG-ROM reads `cartridge_rom[(addr - 0x8000) % 0x4000]`
for `0x8000..=0xFFFF`, all other addresses read 0. -/
def Bus.mem_read (b : Bus) (addr : Nat) : Nat :=
  if addr ≤ 0x1FFF then b.ram (addr &&& 0x07FF)
  else if addr ≤ 0x3FFF then 0
  else if 0x8000 ≤ addr ∧ addr ≤ 0xFFFF then
    b.cartridge_rom ((addr - 0x8000) % 0x4000)
  else 0

/-- `Bus::mem_write`: RAM mirrored on `addr & 0x07FF` below `0x2000`,
PPU window writes ignored, every other write ignored (with a warning). -/
def Bus.mem_write (b : Bus) (addr data : Nat) : Bus :=
  if addr ≤ 0x1FFF then
    { b with ram := fun j => if j = (addr &&& 0x07FF) then data else b.ram j }
  else b

/-- `Bus::mem_read_u16`: little-endian pair of reads; the high byte comes
from `pos.wrapping_add(1)`. -/
def Bus.mem_read_u16 (b : Bus) (pos : Nat) : Nat :=
  let lo := b.mem_read pos
  let hi := b.mem_read ((pos + 1) % 0x10000)
  (hi <<< 8) ||| lo

/-- `Bus::mem_read_u16_zp`: zero-page wrapped pointer read; the high byte
pointer is `pos.wrapping_add(1)` as a `u8`. -/
def Bus.mem_read_u16_zp (b : Bus) (pos : Nat) : Nat :=
  let lo := b.mem_read (pos % 0x100)
  let hi := b.mem_read ((pos + 1) % 0x100)
  (hi <<< 8) ||| lo

/-- `Bus::mem_write_u16`: writes low byte at `pos` and high byte at the
UNCHECKED `pos + 1`; when `pos = 0xFFFF` the `u16` addition overflows, which
a debug build aborts on — modelled as `none`. -/
def Bus.mem_write_u16 (b : Bus) (pos data : Nat) : Option Bus :=
  if pos + 1 ≤ 0xFFFF then
    let lo := data &&& 0xFF
    let hi := (data >>> 8) % 0x10000
    some ((b.mem_write pos lo).mem_write (pos + 1) hi)
  else none

/-- `Bus::load_rom` loop body, one iteration per ROM byte, `i` the
enumeration index. -/
def Bus.load_rom_aux (start_addr : Nat) : Bus → List Nat → Nat → Bus
  | b, [], _ => b
  | b, byte :: rest, i =>
    let b' :=
      if 0x8000 ≤ start_addr then
        let rom_addr := start_addr + i - 0x8000
        if rom_addr < 32768 then
          { b with cartridge_rom := fun j => if j = rom_addr then byte else b.cartridge_rom j }
        else b
      else b
    Bus.load_rom_aux start_addr b' rest (i + 1)

/-- `Bus::load_rom`: copy each ROM byte into `cartridge_rom` at
`(start_addr + i) - 0x8000`, skipping indices past the 32 KB array. -/
def Bus.load_rom (b : Bus) (rom : List Nat) (start_addr : Nat) : Bus :=
  Bus.load_rom_aux start_addr b rom 0

/-! ## ROM loader (src/rom.rs) -/

/-- `enum Mirroring`. -/
inductive Mirroring
  | Vertical
  | Horizontal
  | FourScreen
deriving DecidableEq, Repr

/-- `struct Rom`. -/
structure Rom where
  prg_rom : List Nat
  chr_rom : List Nat
  mapper : Nat
  mirroring : Mirroring

/-- The iNES magic `NES_TAG`. -/
def nesTag : List Nat := [0x4E, 0x45, 0x53, 0x1A]

/-- `Rom::new`.  `none` models a panic: the source indexes `raw[0..4]`,
`raw[7]`, `raw[6]`, `raw[4]`, `raw[5]` and slices
`raw[prg_start..prg_start+prg_size]`, `raw[chr_start..chr_start+chr_size]`
without any length check, so a short input aborts instead of surfacing a
`Truncated` error. -/
def Rom.new (raw : List Nat) : Option (Except String Rom) :=
  if raw.length < 4 then none
  else if raw.take 4 ≠ nesTag then
    some (Except.error "File is not in iNES format")
  else if raw.length < 8 then none
  else
    let b7 := raw.getD 7 0
    let b6 := raw.getD 6 0
    let mapper := (b7 &&& 0xF0) ||| (b6 >>> 4)
    let ines_ver := (b7 >>> 2) &&& 0b11
    if ines_ver ≠ 0 then some (Except.error "NES2.0 format is not supported")
    else
      let four_screen := b6 &&& 0b1000 ≠ 0
      let vertical_mirroring := b6 &&& 0b1 ≠ 0
      let mirroring :=
        if four_screen then Mirroring.FourScreen
        else if vertical_mirroring then Mirroring.Vertical
        else Mirroring.Horizontal
      let prg_rom_size := raw.getD 4 0 * 16384
      let chr_rom_size := raw.getD 5 0 * 8192
      let skip_trainer := b6 &&& 0b100 ≠ 0
      let prg_rom_start := 16 + (if skip_trainer then 512 else 0)
      let chr_rom_start := prg_rom_start + prg_rom_size
      if prg_rom_start + prg_rom_size ≤ raw.length ∧
          chr_rom_start + chr_rom_size ≤ raw.length then
        some (Except.ok
          { prg_rom := (raw.drop prg_rom_start).take prg_rom_size
            chr_rom := (raw.drop chr_rom_start).take chr_rom_size
            mapper := mapper
            mirroring := mirroring })
      else none

/-! ## CPU types (src/cpu/types.rs) -/

/-- `enum Flags`: the bit each status flag occupies in `P`. -/
inductive Flags
  | C | Z | I | D | B | U | V | N
deriving DecidableEq, Repr

/-- Numeric value of a flag bit, `1 << k` as in the source. -/
def Flags.toNat : Flags → Nat
  | .C => 0x01
  | .Z => 0x02
  | .I => 0x04
  | .D => 0x08
  | .B => 0x10
  | .U => 0x20
  | .V => 0x40
  | .N => 0x80

/-- Bit index of a flag, so that `toNat f = 2 ^ bitIdx f`. -/
def Flags.bitIdx : Flags → Nat
  | .C => 0
  | .Z => 1
  | .I => 2
  | .D => 3
  | .B => 4
  | .U => 5
  | .V => 6
  | .N => 7

/-- `enum AddressingMode`. -/
inductive AddressingMode
  | Implied | Accumulator | Immediate
  | ZeroPage | ZeroPageX | ZeroPageY
  | Relative
  | Absolute | AbsoluteX | AbsoluteY
  | Indirect | IndirectX | IndirectY
deriving DecidableEq, Repr

/-- `enum Opcode`. -/
inductive Opcode
  | ADC | SBC
  | AND | EOR | ORA
  | ASL | LSR | ROL | ROR
  | BCC | BCS | BEQ | BMI | BNE | BPL | BVC | BVS
  | CLC | CLD | CLI | CLV | SEC | SED | SEI
  | CMP | CPX | CPY | BIT
  | DEC | DEX | DEY | INC | INX | INY
  | JMP | JSR | RTI | RTS | BRK
  | LDA | LDX | LDY | STA | STX | STY
  | TAX | TAY | TSX | TXA | TXS | TYA
  | PHA | PHP | PLA | PLP
  | NOP
  | Unknown
deriving DecidableEq, Repr

/-- `struct Instruction`. -/
structure Instruction where
  opcode : Opcode
  addressing_mode : AddressingMode
  cycles : Nat
deriving DecidableEq, Repr

/-! ## Opcode table (src/cpu/opcodes.rs) -/

/-- `opcodes::decode`: the full 151-entry official opcode table; every other
byte decodes to `Unknown` with `Indirect` addressing and 0 cycles, exactly
as the source fallback arm does. -/
def decode : Nat → Instruction
  | 0x00 => Instruction.mk Opcode.BRK AddressingMode.Implied 7
  | 0x01 => Instruction.mk Opcode.ORA AddressingMode.IndirectX 6
  | 0x05 => Instruction.mk Opcode.ORA AddressingMode.ZeroPage 3
  | 0x09 => Instruction.mk Opcode.ORA AddressingMode.Immediate 2
  | 0x0D => Instruction.mk Opcode.ORA AddressingMode.Absolute 4
  | 0x11 => Instruction.mk Opcode.ORA AddressingMode.IndirectY 5
  | 0x15 => Instruction.mk Opcode.ORA AddressingMode.ZeroPageX 4
  | 0x19 => Instruction.mk Opcode.ORA AddressingMode.AbsoluteY 4
  | 0x1D => Instruction.mk Opcode.ORA AddressingMode.AbsoluteX 4
  | 0x06 => Instruction.mk Opcode.ASL AddressingMode.ZeroPage 5
  | 0x0A => Instruction.mk Opcode.ASL AddressingMode.Accumulator 2
  | 0x0E => Instruction.mk Opcode.ASL AddressingMode.Absolute 6
  | 0x16 => Instruction.mk Opcode.ASL AddressingMode.ZeroPageX 6
  | 0x1E => Instruction.mk Opcode.ASL AddressingMode.AbsoluteX 7
  | 0x08 => Instruction.mk Opcode.PHP AddressingMode.Implied 3
  | 0x10 => Instruction.mk Opcode.BPL AddressingMode.Relative 2
  | 0x18 => Instruction.mk Opcode.CLC AddressingMode.Implied 2
  | 0x20 => Instruction.mk Opcode.JSR AddressingMode.Absolute 6
  | 0x21 => Instruction.mk Opcode.AND AddressingMode.IndirectX 6
  | 0x24 => Instruction.mk Opcode.BIT AddressingMode.ZeroPage 3
  | 0x25 => Instruction.mk Opcode.AND AddressingMode.ZeroPage 3
  | 0x29 => Instruction.mk Opcode.AND AddressingMode.Immediate 2
  | 0x2A => Instruction.mk Opcode.ROL AddressingMode.Accumulator 2
  | 0x2C => Instruction.mk Opcode.BIT AddressingMode.Absolute 4
  | 0x2D => Instruction.mk Opcode.AND AddressingMode.Absolute 4
  | 0x31 => Instruction.mk Opcode.AND AddressingMode.IndirectY 5
  | 0x35 => Instruction.mk Opcode.AND AddressingMode.ZeroPageX 4
  | 0x39 => Instruction.mk Opcode.AND AddressingMode.AbsoluteY 4
  | 0x3D => Instruction.mk Opcode.AND AddressingMode.AbsoluteX 4
  | 0x26 => Instruction.mk Opcode.ROL AddressingMode.ZeroPage 5
  | 0x2E => Instruction.mk Opcode.ROL AddressingMode.Absolute 6
  | 0x36 => Instruction.mk Opcode.ROL AddressingMode.ZeroPageX 6
  | 0x3E => Instruction.mk Opcode.ROL AddressingMode.AbsoluteX 7
  | 0x28 => Instruction.mk Opcode.PLP AddressingMode.Implied 4
  | 0x38 => Instruction.mk Opcode.SEC AddressingMode.Implied 2
  | 0x40 => Instruction.mk Opcode.RTI AddressingMode.Implied 6
  | 0x30 => Instruction.mk Opcode.BMI AddressingMode.Relative 2
  | 0x41 => Instruction.mk Opcode.EOR AddressingMode.IndirectX 6
  | 0x45 => Instruction.mk Opcode.EOR AddressingMode.ZeroPage 3
  | 0x48 => Instruction.mk Opcode.PHA AddressingMode.Implied 3
  | 0x49 => Instruction.mk Opcode.EOR AddressingMode.Immediate 2
  | 0x4A => Instruction.mk Opcode.LSR AddressingMode.Accumulator 2
  | 0x4C => Instruction.mk Opcode.JMP AddressingMode.Absolute 3
  | 0x4D => Instruction.mk Opcode.EOR AddressingMode.Absolute 4
  | 0x51 => Instruction.mk Opcode.EOR AddressingMode.IndirectY 5
  | 0x55 => Instruction.mk Opcode.EOR AddressingMode.ZeroPageX 4
  | 0x59 => Instruction.mk Opcode.EOR AddressingMode.AbsoluteY 4
  | 0x5D => Instruction.mk Opcode.EOR AddressingMode.AbsoluteX 4
  | 0x46 => Instruction.mk Opcode.LSR AddressingMode.ZeroPage 5
  | 0x4E => Instruction.mk Opcode.LSR AddressingMode.Absolute 6
  | 0x56 => Instruction.mk Opcode.LSR AddressingMode.ZeroPageX 6
  | 0x5E => Instruction.mk Opcode.LSR AddressingMode.AbsoluteX 7
  | 0x58 => Instruction.mk Opcode.CLI AddressingMode.Implied 2
  | 0x60 => Instruction.mk Opcode.RTS AddressingMode.Implied 6
  | 0x50 => Instruction.mk Opcode.BVC AddressingMode.Relative 2
  | 0x61 => Instruction.mk Opcode.ADC AddressingMode.IndirectX 6
  | 0x65 => Instruction.mk Opcode.ADC AddressingMode.ZeroPage 3
  | 0x68 => Instruction.mk Opcode.PLA AddressingMode.Implied 4
  | 0x69 => Instruction.mk Opcode.ADC AddressingMode.Immediate 2
  | 0x6A => Instruction.mk Opcode.ROR AddressingMode.Accumulator 2
  | 0x6C => Instruction.mk Opcode.JMP AddressingMode.Indirect 5
  | 0x6D => Instruction.mk Opcode.ADC AddressingMode.Absolute 4
  | 0x71 => Instruction.mk Opcode.ADC AddressingMode.IndirectY 5
  | 0x75 => Instruction.mk Opcode.ADC AddressingMode.ZeroPageX 4
  | 0x79 => Instruction.mk Opcode.ADC AddressingMode.AbsoluteY 4
  | 0x7D => Instruction.mk Opcode.ADC AddressingMode.AbsoluteX 4
  | 0x66 => Instruction.mk Opcode.ROR AddressingMode.ZeroPage 5
  | 0x6E => Instruction.mk Opcode.ROR AddressingMode.Absolute 6
  | 0x76 => Instruction.mk Opcode.ROR AddressingMode.ZeroPageX 6
  | 0x7E => Instruction.mk Opcode.ROR AddressingMode.AbsoluteX 7
  | 0x78 => Instruction.mk Opcode.SEI AddressingMode.Implied 2
  | 0x70 => Instruction.mk Opcode.BVS AddressingMode.Relative 2
  | 0x84 => Instruction.mk Opcode.STY AddressingMode.ZeroPage 3
  | 0x8C => Instruction.mk Opcode.STY AddressingMode.Absolute 4
  | 0x94 => Instruction.mk Opcode.STY AddressingMode.ZeroPageX 4
  | 0x85 => Instruction.mk Opcode.STA AddressingMode.ZeroPage 3
  | 0x8D => Instruction.mk Opcode.STA AddressingMode.Absolute 4
  | 0x81 => Instruction.mk Opcode.STA AddressingMode.IndirectX 6
  | 0x91 => Instruction.mk Opcode.STA AddressingMode.IndirectY 6
  | 0x95 => Instruction.mk Opcode.STA AddressingMode.ZeroPageX 4
  | 0x99 => Instruction.mk Opcode.STA AddressingMode.AbsoluteY 5
  | 0x9D => Instruction.mk Opcode.STA AddressingMode.AbsoluteX 5
  | 0x86 => Instruction.mk Opcode.STX AddressingMode.ZeroPage 3
  | 0x8E => Instruction.mk Opcode.STX AddressingMode.Absolute 4
  | 0x96 => Instruction.mk Opcode.STX AddressingMode.ZeroPageY 4
  | 0x88 => Instruction.mk Opcode.DEY AddressingMode.Implied 2
  | 0x8A => Instruction.mk Opcode.TXA AddressingMode.Implied 2
  | 0x90 => Instruction.mk Opcode.BCC AddressingMode.Relative 2
  | 0x98 => Instruction.mk Opcode.TYA AddressingMode.Implied 2
  | 0x9A => Instruction.mk Opcode.TXS AddressingMode.Implied 2
  | 0xA0 => Instruction.mk Opcode.LDY AddressingMode.Immediate 2
  | 0xA4 => Instruction.mk Opcode.LDY AddressingMode.ZeroPage 3
  | 0xAC => Instruction.mk Opcode.LDY AddressingMode.Absolute 4
  | 0xB4 => Instruction.mk Opcode.LDY AddressingMode.ZeroPageX 4
  | 0xBC => Instruction.mk Opcode.LDY AddressingMode.AbsoluteX 4
  | 0xA2 => Instruction.mk Opcode.LDX AddressingMode.Immediate 2
  | 0xA6 => Instruction.mk Opcode.LDX AddressingMode.ZeroPage 3
  | 0xAE => Instruction.mk Opcode.LDX AddressingMode.Absolute 4
  | 0xB6 => Instruction.mk Opcode.LDX AddressingMode.ZeroPageY 4
  | 0xBE => Instruction.mk Opcode.LDX AddressingMode.AbsoluteY 4
  | 0xA5 => Instruction.mk Opcode.LDA AddressingMode.ZeroPage 3
  | 0xA9 => Instruction.mk Opcode.LDA AddressingMode.Immediate 2
  | 0xAD => Instruction.mk Opcode.LDA AddressingMode.Absolute 4
  | 0xA1 => Instruction.mk Opcode.LDA AddressingMode.IndirectX 6
  | 0xB1 => Instruction.mk Opcode.LDA AddressingMode.IndirectY 5
  | 0xB5 => Instruction.mk Opcode.LDA AddressingMode.ZeroPageX 4
  | 0xB9 => Instruction.mk Opcode.LDA AddressingMode.AbsoluteY 4
  | 0xBD => Instruction.mk Opcode.LDA AddressingMode.AbsoluteX 4
  | 0xA8 => Instruction.mk Opcode.TAY AddressingMode.Implied 2
  | 0xAA => Instruction.mk Opcode.TAX AddressingMode.Implied 2
  | 0xB0 => Instruction.mk Opcode.BCS AddressingMode.Relative 2
  | 0xB8 => Instruction.mk Opcode.CLV AddressingMode.Implied 2
  | 0xBA => Instruction.mk Opcode.TSX AddressingMode.Implied 2
  | 0xC0 => Instruction.mk Opcode.CPY AddressingMode.Immediate 2
  | 0xC4 => Instruction.mk Opcode.CPY AddressingMode.ZeroPage 3
  | 0xCC => Instruction.mk Opcode.CPY AddressingMode.Absolute 4
  | 0xC9 => Instruction.mk Opcode.CMP AddressingMode.Immediate 2
  | 0xC1 => Instruction.mk Opcode.CMP AddressingMode.IndirectX 6
  | 0xC5 => Instruction.mk Opcode.CMP AddressingMode.ZeroPage 3
  | 0xCD => Instruction.mk Opcode.CMP AddressingMode.Absolute 4
  | 0xD1 => Instruction.mk Opcode.CMP AddressingMode.IndirectY 5
  | 0xD5 => Instruction.mk Opcode.CMP AddressingMode.ZeroPageX 4
  | 0xD9 => Instruction.mk Opcode.CMP AddressingMode.AbsoluteY 4
  | 0xDD => Instruction.mk Opcode.CMP AddressingMode.AbsoluteX 4
  | 0xC8 => Instruction.mk Opcode.INY AddressingMode.Implied 2
  | 0xCA => Instruction.mk Opcode.DEX AddressingMode.Implied 2
  | 0xD0 => Instruction.mk Opcode.BNE AddressingMode.Relative 2
  | 0xD8 => Instruction.mk Opcode.CLD AddressingMode.Implied 2
  | 0xC6 => Instruction.mk Opcode.DEC AddressingMode.ZeroPage 5
  | 0xCE => Instruction.mk Opcode.DEC AddressingMode.Absolute 6
  | 0xD6 => Instruction.mk Opcode.DEC AddressingMode.ZeroPageX 6
  | 0xDE => Instruction.mk Opcode.DEC AddressingMode.AbsoluteX 7
  | 0xE0 => Instruction.mk Opcode.CPX AddressingMode.Immediate 2
  | 0xE4 => Instruction.mk Opcode.CPX AddressingMode.ZeroPage 3
  | 0xEC => Instruction.mk Opcode.CPX AddressingMode.Absolute 4
  | 0xE9 => Instruction.mk Opcode.SBC AddressingMode.Immediate 2
  | 0xE1 => Instruction.mk Opcode.SBC AddressingMode.IndirectX 6
  | 0xE5 => Instruction.mk Opcode.SBC AddressingMode.ZeroPage 3
  | 0xED => Instruction.mk Opcode.SBC AddressingMode.Absolute 4
  | 0xF1 => Instruction.mk Opcode.SBC AddressingMode.IndirectY 5
  | 0xF5 => Instruction.mk Opcode.SBC AddressingMode.ZeroPageX 4
  | 0xF9 => Instruction.mk Opcode.SBC AddressingMode.AbsoluteY 4
  | 0xFD => Instruction.mk Opcode.SBC AddressingMode.AbsoluteX 4
  | 0xE8 => Instruction.mk Opcode.INX AddressingMode.Implied 2
  | 0xEA => Instruction.mk Opcode.NOP AddressingMode.Implied 2
  | 0xF0 => Instruction.mk Opcode.BEQ AddressingMode.Relative 2
  | 0xF8 => Instruction.mk Opcode.SED AddressingMode.Implied 2
  | 0xE6 => Instruction.mk Opcode.INC AddressingMode.ZeroPage 5
  | 0xEE => Instruction.mk Opcode.INC AddressingMode.Absolute 6
  | 0xF6 => Instruction.mk Opcode.INC AddressingMode.ZeroPageX 6
  | 0xFE => Instruction.mk Opcode.INC AddressingMode.AbsoluteX 7
  | _ => Instruction.mk Opcode.Unknown AddressingMode.Indirect 0

/-! ## CPU state and helpers (src/cpu/mod.rs) -/

/-- `struct CPU`. -/
structure CPU where
  accumulator : Nat
  program_counter : Nat
  register_x : Nat
  register_y : Nat
  stack_pointer : Nat
  status : Nat
  bus : Bus
  cycles : Nat

/-- `CPU::new`. -/
def CPU.new : CPU :=
  { accumulator := 0
    program_counter := 0x8000
    register_x := 0
    register_y := 0
    stack_pointer := 0xFD
    status := 0x24
    bus := Bus.new
    cycles := 0 }

/-- `CPU::set_pc`. -/
def CPU.set_pc (c : CPU) (pc : Nat) : CPU :=
  { c with program_counter := pc }

/-- `CPU::load`: load a PRG image at `0x8000`. -/
def CPU.load (c : CPU) (rom : List Nat) : CPU :=
  { c with bus := c.bus.load_rom rom 0x8000 }

/-- `Mem::mem_read` for `CPU` delegates to the bus. -/
def CPU.mem_read (c : CPU) (addr : Nat) : Nat :=
  c.bus.mem_read addr

/-- `Mem::mem_write` for `CPU` delegates to the bus. -/
def CPU.mem_write (c : CPU) (addr data : Nat) : CPU :=
  { c with bus := c.bus.mem_write addr data }

/-- `Mem::mem_read_u16` for `CPU` delegates to the bus. -/
def CPU.mem_read_u16 (c : CPU) (pos : Nat) : Nat :=
  c.bus.mem_read_u16 pos

/-- `CPU::fetch_byte`: read at PC then `program_counter += 1`, an UNCHECKED
`u16` increment; `none` models the overflow abort at `PC = 0xFFFF`. -/
def CPU.fetch_byte (c : CPU) : Option (Nat × CPU) :=
  let opcode := c.bus.mem_read c.program_counter
  if c.program_counter + 1 ≤ 0xFFFF then
    some (opcode, { c with program_counter := c.program_counter + 1 })
  else none

/-- `CPU::fetch_word`: 16-bit read at PC then `program_counter += 2`, an
UNCHECKED `u16` increment; `none` models the overflow abort. -/
def CPU.fetch_word (c : CPU) : Option (Nat × CPU) :=
  let w := c.bus.mem_read_u16 c.program_counter
  if c.program_counter + 2 ≤ 0xFFFF then
    some (w, { c with program_counter := c.program_counter + 2 })
  else none

/-- `CPU::set_flag`: `status |= flag` or `status &= !flag`; the `u8`
complement of a flag bit is `flag ^ 0xFF`. -/
def CPU.set_flag (c : CPU) (flag : Flags) (condition : Bool) : CPU :=
  if condition then { c with status := c.status ||| flag.toNat }
  else { c with status := c.status &&& (flag.toNat ^^^ 0xFF) }

/-- `CPU::get_flag`. -/
def CPU.get_flag (c : CPU) (flag : Flags) : Bool :=
  (c.status &&& flag.toNat) ≠ 0

/-- `CPU::set_zn`. -/
def CPU.set_zn (c : CPU) (value : Nat) : CPU :=
  (c.set_flag Flags.Z (value = 0)).set_flag Flags.N ((value &&& 0x80) ≠ 0)

/-- `CPU::set_carry`. -/
def CPU.set_carry (c : CPU) (value : Nat) : CPU :=
  c.set_flag Flags.C (value > 0xFF)

/-- `CPU::set_overflow`: `V = (a ^ result) & (b ^ result) & 0x80 != 0`. -/
def CPU.set_overflow (c : CPU) (a b result : Nat) : CPU :=
  c.set_flag Flags.V (((a ^^^ result) &&& (b ^^^ result) &&& 0x80) ≠ 0)

/-- `CPU::reset`: fixed register values; PC is the constant `0x8000`, not a
vector read.  The bus and the cycle counter are not touched. -/
def CPU.reset (c : CPU) : CPU :=
  { c with
    accumulator := 0
    register_x := 0
    register_y := 0
    stack_pointer := 0xFD
    status := 0x24
    program_counter := 0x8000 }

/-- `CPU::push`: write at `0x0100 | SP`, then `SP` decrements with `u8`
wrap-around (`wrapping_sub(1)` is `+ 0xFF` mod `0x100`). -/
def CPU.push (c : CPU) (val : Nat) : CPU :=
  let c1 := c.mem_write (0x0100 ||| c.stack_pointer) val
  { c1 with stack_pointer := (c1.stack_pointer + 0xFF) % 0x100 }

/-- `CPU::pop`: `SP` increments with `u8` wrap-around, then read at
`0x0100 | SP`. -/
def CPU.pop (c : CPU) : Nat × CPU :=
  let c1 := { c with stack_pointer := (c.stack_pointer + 1) % 0x100 }
  (c1.mem_read (0x0100 ||| c1.stack_pointer), c1)

/-- `CPU::load_irq_pc`: loads PC from the IRQ/BRK vector `0xFFFE/0xFFFF`. -/
def CPU.load_irq_pc (c : CPU) : CPU :=
  let high := c.mem_read 0xFFFF
  let low := c.mem_read 0xFFFE
  { c with program_counter := (high <<< 8) ||| low }

/-- `CPU::irq`: only when the I flag is clear — push PC high and low, load
PC from `0xFFFE/0xFFFF`, push `P | 0x20`, set I. -/
def CPU.irq (c : CPU) : CPU :=
  if ¬ c.get_flag Flags.I then
    let high := (c.program_counter >>> 8) % 0x100
    let low := c.program_counter &&& 0xFF
    let c1 := c.push high
    let c2 := c1.push low
    let c3 := c2.load_irq_pc
    let c4 := c3.push (c3.status ||| 0x20)
    c4.set_flag Flags.I true
  else c

/-- `CPU::nmi`: push PC high and low, then `load_irq_pc` — the source loads
the NMI handler from the IRQ vector `0xFFFE/0xFFFF`, not from
`0xFFFA/0xFFFB` — then push `P | 0x20` and set I. -/
def CPU.nmi (c : CPU) : CPU :=
  let high := (c.program_counter >>> 8) % 0x100
  let low := c.program_counter &&& 0xFF
  let c1 := c.push high
  let c2 := c1.push low
  let c3 := c2.load_irq_pc
  let c4 := c3.push (c3.status ||| 0x20)
  c4.set_flag Flags.I true

/-! ## Addressing-mode evaluator (src/cpu/addressing.rs) -/

/-- The `as i8 as u16` cast of a fetched offset byte: sign-extend an 8-bit
value to 16 bits (the `% 0x100` is the `u8` type bound of the operand). -/
def signExtend8 (v : Nat) : Nat :=
  if v % 0x100 < 0x80 then v % 0x100 else v % 0x100 + 0xFF00

/-- `CPU::resolve_addr`: consume 0–2 operand bytes and return the effective
address.  `none` models an abort of one of the unchecked PC increments. -/
def CPU.resolve_addr (c : CPU) (mode : AddressingMode) : Option (Nat × CPU) :=
  match mode with
  | AddressingMode.Relative => do
    let (offset, c1) ← c.fetch_byte
    pure ((c1.program_counter + signExtend8 offset) % 0x10000, c1)
  | AddressingMode.Implied => some (0, c)
  | AddressingMode.Accumulator => some (0, c)
  | AddressingMode.Immediate =>
    let addr := c.program_counter
    if c.program_counter + 1 ≤ 0xFFFF then
      some (addr, { c with program_counter := c.program_counter + 1 })
    else none
  | AddressingMode.ZeroPage => c.fetch_byte
  | AddressingMode.ZeroPageX => do
    let (b, c1) ← c.fetch_byte
    pure ((b + c1.register_x) % 0x100, c1)
  | AddressingMode.ZeroPageY => do
    let (b, c1) ← c.fetch_byte
    pure ((b + c1.register_y) % 0x100, c1)
  | AddressingMode.Absolute => c.fetch_word
  | AddressingMode.Indirect => do
    let (ptr, c1) ← c.fetch_word
    if ptr &&& 0x00FF = 0x00FF then
      let lo := c1.mem_read ptr
      let hi := c1.mem_read (ptr &&& 0xFF00)
      pure ((hi <<< 8) ||| lo, c1)
    else
      pure (c1.mem_read_u16 ptr, c1)
  | AddressingMode.AbsoluteX => do
    let (w, c1) ← c.fetch_word
    pure ((w + c1.register_x) % 0x10000, c1)
  | AddressingMode.AbsoluteY => do
    let (w, c1) ← c.fetch_word
    pure ((w + c1.register_y) % 0x10000, c1)
  | AddressingMode.IndirectX => do
    let (base, c1) ← c.fetch_byte
    let ptr := (base + c1.register_x) % 0x100
    pure (c1.bus.mem_read_u16_zp ptr, c1)
  | AddressingMode.IndirectY => do
    let (base, c1) ← c.fetch_byte
    let ptr := c1.bus.mem_read_u16_zp base
    pure ((ptr + c1.register_y) % 0x10000, c1)

/-! ## Interpreter (src/cpu/execute.rs) -/

/-- `CPU::adc`: `sum = acc + val + C` (no `u16` overflow possible), carry
from `sum > 0xFF`, result `sum as u8`, overflow via `set_overflow`, then
Z/N. -/
def CPU.adc (c : CPU) (val acc : Nat) : Nat × CPU :=
  let carry := if c.get_flag Flags.C then 1 else 0
  let sum := acc + val + carry
  let c1 := c.set_carry sum
  let result := sum % 0x100
  let c2 := c1.set_overflow val acc result
  let c3 := c2.set_zn result
  (result, c3)

/-- `CPU::sbc`: signed 16-bit subtraction `acc - mem - (1 - C)`; overflow
formula `(sub ^ acc) & (sub ^ !mem) & 0x80`; carry from `sub >= 0`; result
`sub as u8` (Euclidean mod 256). -/
def CPU.sbc (c : CPU) (acc mem : Nat) : Nat × CPU :=
  let carry : Int := if c.get_flag Flags.C then 0 else 1
  let sub : Int := (acc : Int) - (mem : Int) - carry
  let overflow : Int :=
    Int.land (Int.land (Int.xor sub (acc : Int)) (Int.xor sub (Int.lnot (mem : Int)))) 0x80
  let c1 := c.set_flag Flags.V (overflow ≠ 0)
  let c2 := c1.set_flag Flags.C (0 ≤ sub)
  let result := (sub % 0x100).toNat
  let c3 := c2.set_zn result
  (result, c3)

/-- `CPU::execute`: resolve the effective address, then run the opcode
semantics.  `none` models an abort of one of the unchecked `u16`
additions/subtractions (BRK padding skip, RTS increment, JSR return-address
decrement, operand fetches). -/
def CPU.execute (c : CPU) (instruction : Instruction) : Option CPU := do
  let (addr, c1) ← c.resolve_addr instruction.addressing_mode
  match instruction.opcode with
  | Opcode.LDA =>
    let c2 := { c1 with accumulator := c1.mem_read addr }
    pure (c2.set_zn c2.accumulator)
  | Opcode.LDX =>
    let c2 := { c1 with register_x := c1.mem_read addr }
    pure (c2.set_zn c2.register_x)
  | Opcode.LDY =>
    let c2 := { c1 with register_y := c1.mem_read addr }
    pure (c2.set_zn c2.register_y)
  | Opcode.STA => pure (c1.mem_write addr c1.accumulator)
  | Opcode.STX => pure (c1.mem_write addr c1.register_x)
  | Opcode.STY => pure (c1.mem_write addr c1.register_y)
  | Opcode.TAX =>
    let c2 := { c1 with register_x := c1.accumulator }
    pure (c2.set_zn c2.register_x)
  | Opcode.TAY =>
    let c2 := { c1 with register_y := c1.accumulator }
    pure (c2.set_zn c2.register_y)
  | Opcode.TSX =>
    let c2 := { c1 with register_x := c1.stack_pointer }
    pure (c2.set_zn c2.register_x)
  | Opcode.TXS => pure { c1 with stack_pointer := c1.register_x }
  | Opcode.TXA =>
    let c2 := { c1 with accumulator := c1.register_x }
    pure (c2.set_zn c2.accumulator)
  | Opcode.TYA =>
    let c2 := { c1 with accumulator := c1.register_y }
    pure (c2.set_zn c2.accumulator)
  | Opcode.ADC =>
    let (r, c2) := c1.adc (c1.mem_read addr) c1.accumulator
    pure { c2 with accumulator := r }
  | Opcode.SBC =>
    let (r, c2) := c1.sbc c1.accumulator (c1.mem_read addr)
    pure { c2 with accumulator := r }
  | Opcode.INC =>
    let value := c1.mem_read addr
    let res := (value + 1) % 0x100
    let c2 := c1.mem_write addr res
    pure (c2.set_zn res)
  | Opcode.INX =>
    let res := (c1.register_x + 1) % 0x100
    pure (({ c1 with register_x := res }).set_zn res)
  | Opcode.INY =>
    let res := (c1.register_y + 1) % 0x100
    pure (({ c1 with register_y := res }).set_zn res)
  | Opcode.DEC =>
    let value := c1.mem_read addr
    let res := (value + 0xFF) % 0x100
    let c2 := c1.mem_write addr res
    pure (c2.set_zn res)
  | Opcode.DEX =>
    let res := (c1.register_x + 0xFF) % 0x100
    pure (({ c1 with register_x := res }).set_zn res)
  | Opcode.DEY =>
    let res := (c1.register_y + 0xFF) % 0x100
    pure (({ c1 with register_y := res }).set_zn res)
  | Opcode.ASL =>
    if instruction.addressing_mode = AddressingMode.Accumulator then
      let c2 := c1.set_flag Flags.C ((c1.accumulator &&& 0x80) ≠ 0)
      let c3 := { c2 with accumulator := (c2.accumulator <<< 1) % 0x100 }
      pure (c3.set_zn c3.accumulator)
    else
      let val := c1.mem_read addr
      let c2 := c1.set_flag Flags.C ((val &&& 0x80) ≠ 0)
      let result := (val <<< 1) % 0x100
      let c3 := c2.mem_write addr result
      pure (c3.set_zn result)
  | Opcode.LSR =>
    if instruction.addressing_mode = AddressingMode.Accumulator then
      let c2 := c1.set_flag Flags.C ((c1.accumulator &&& 0x01) ≠ 0)
      let c3 := { c2 with accumulator := c2.accumulator >>> 1 }
      pure (c3.set_zn c3.accumulator)
    else
      let val := c1.mem_read addr
      let c2 := c1.set_flag Flags.C ((val &&& 0x01) ≠ 0)
      let result := val >>> 1
      let c3 := c2.mem_write addr result
      pure (c3.set_zn result)
  | Opcode.ROL =>
    if instruction.addressing_mode = AddressingMode.Accumulator then
      let carry_flag := if c1.get_flag Flags.C then 1 else 0
      let c2 := c1.set_flag Flags.C ((c1.accumulator &&& 0x80) ≠ 0)
      let c3 := { c2 with accumulator := ((c2.accumulator <<< 1) % 0x100) ||| carry_flag }
      pure (c3.set_zn c3.accumulator)
    else
      let carry_flag := if c1.get_flag Flags.C then 1 else 0
      let value := c1.mem_read addr
      let c2 := c1.set_flag Flags.C ((value &&& 0x80) ≠ 0)
      let result := ((value <<< 1) % 0x100) ||| carry_flag
      let c3 := c2.mem_write addr result
      pure (c3.set_zn result)
  | Opcode.ROR =>
    if instruction.addressing_mode = AddressingMode.Accumulator then
      let carry_flag := if c1.get_flag Flags.C then 1 else 0
      let c2 := c1.set_flag Flags.C ((c1.accumulator &&& 0x01) ≠ 0)
      let c3 := { c2 with accumulator := (c2.accumulator >>> 1) ||| (carry_flag <<< 7) }
      pure (c3.set_zn c3.accumulator)
    else
      let carry_flag := if c1.get_flag Flags.C then 1 else 0
      let value := c1.mem_read addr
      let c2 := c1.set_flag Flags.C ((value &&& 0x01) ≠ 0)
      let result := (value >>> 1) ||| (carry_flag <<< 7)
      let c3 := c2.mem_write addr result
      pure (c3.set_zn result)
  | Opcode.AND =>
    let val := c1.mem_read addr
    let c2 := { c1 with accumulator := val &&& c1.accumulator }
    pure (c2.set_zn c2.accumulator)
  | Opcode.ORA =>
    let val := c1.mem_read addr
    let c2 := { c1 with accumulator := val ||| c1.accumulator }
    pure (c2.set_zn c2.accumulator)
  | Opcode.EOR =>
    let val := c1.mem_read addr
    let c2 := { c1 with accumulator := c1.accumulator ^^^ val }
    pure (c2.set_zn c2.accumulator)
  | Opcode.BIT =>
    let val := c1.mem_read addr
    let c2 := c1.set_flag Flags.N ((val &&& 0x80) ≠ 0)
    let c3 := c2.set_flag Flags.V ((val &&& 0x40) ≠ 0)
    pure (c3.set_flag Flags.Z ((val &&& c3.accumulator) = 0))
  | Opcode.CMP =>
    let val := c1.mem_read addr
    let result := (c1.accumulator + 0x100 - val % 0x100) % 0x100
    let c2 := c1.set_flag Flags.C (c1.accumulator ≥ val)
    let c3 := c2.set_flag Flags.Z (c2.accumulator = val)
    pure (c3.set_flag Flags.N ((result &&& 0x80) ≠ 0))
  | Opcode.CPX =>
    let val := c1.mem_read addr
    let result := (c1.register_x + 0x100 - val % 0x100) % 0x100
    let c2 := c1.set_flag Flags.C (c1.register_x ≥ val)
    let c3 := c2.set_flag Flags.Z (c2.register_x = val)
    pure (c3.set_flag Flags.N ((result &&& 0x80) ≠ 0))
  | Opcode.CPY =>
    let val := c1.mem_read addr
    let result := (c1.register_y + 0x100 - val % 0x100) % 0x100
    let c2 := c1.set_flag Flags.C (c1.register_y ≥ val)
    let c3 := c2.set_flag Flags.Z (c2.register_y = val)
    pure (c3.set_flag Flags.N ((result &&& 0x80) ≠ 0))
  | Opcode.BCC =>
    pure (if ¬ c1.get_flag Flags.C then { c1 with program_counter := addr } else c1)
  | Opcode.BCS =>
    pure (if c1.get_flag Flags.C then { c1 with program_counter := addr } else c1)
  | Opcode.BEQ =>
    pure (if c1.get_flag Flags.Z then { c1 with program_counter := addr } else c1)
  | Opcode.BMI =>
    pure (if c1.get_flag Flags.N then { c1 with program_counter := addr } else c1)
  | Opcode.BNE =>
    pure (if ¬ c1.get_flag Flags.Z then { c1 with program_counter := addr } else c1)
  | Opcode.BPL =>
    pure (if ¬ c1.get_flag Flags.N then { c1 with program_counter := addr } else c1)
  | Opcode.BRK =>
    if c1.program_counter + 1 ≤ 0xFFFF then
      let c2 := { c1 with program_counter := c1.program_counter + 1 }
      let high := (c2.program_counter >>> 8) % 0x100
      let low := c2.program_counter &&& 0xFF
      let c3 := c2.push high
      let c4 := c3.push low
      let c5 := c4.push (c4.status ||| 0x30)
      let c6 := c5.set_flag Flags.I true
      pure c6.load_irq_pc
    else none
  | Opcode.BVC =>
    pure (if ¬ c1.get_flag Flags.V then { c1 with program_counter := addr } else c1)
  | Opcode.BVS =>
    pure (if c1.get_flag Flags.V then { c1 with program_counter := addr } else c1)
  | Opcode.CLC => pure (c1.set_flag Flags.C false)
  | Opcode.CLD => pure (c1.set_flag Flags.D false)
  | Opcode.CLI => pure (c1.set_flag Flags.I false)
  | Opcode.CLV => pure (c1.set_flag Flags.V false)
  | Opcode.JMP => pure { c1 with program_counter := addr }
  | Opcode.JSR =>
    if 1 ≤ c1.program_counter then
      let return_addr := c1.program_counter - 1
      let high := (return_addr >>> 8) % 0x100
      let low := return_addr &&& 0xFF
      let c2 := c1.push high
      let c3 := c2.push low
      pure { c3 with program_counter := addr }
    else none
  | Opcode.SEC => pure (c1.set_flag Flags.C true)
  | Opcode.SED => pure (c1.set_flag Flags.D true)
  | Opcode.SEI => pure (c1.set_flag Flags.I true)
  | Opcode.PHA => pure (c1.push c1.accumulator)
  | Opcode.PHP => pure (c1.push (c1.status ||| 0x30))
  | Opcode.PLA =>
    let (v, c2) := c1.pop
    let c3 := { c2 with accumulator := v }
    pure (c3.set_zn c3.accumulator)
  | Opcode.PLP =>
    let (v, c2) := c1.pop
    pure { c2 with status := (v &&& 0xEF) ||| 0x20 }
  | Opcode.RTS =>
    let (low, c2) := c1.pop
    let (high, c3) := c2.pop
    let ret := (high <<< 8) ||| low
    if ret + 1 ≤ 0xFFFF then
      pure { c3 with program_counter := ret + 1 }
    else none
  | Opcode.RTI =>
    let (v, c2) := c1.pop
    let c3 := { c2 with status := (v &&& 0xEF) ||| 0x20 }
    let (low, c4) := c3.pop
    let (high, c5) := c4.pop
    pure { c5 with program_counter := (high <<< 8) ||| low }
  | Opcode.NOP => pure c1
  | Opcode.Unknown => pure c1

/-- `CPU::step`: fetch, decode, execute, then add the base cycles. -/
def CPU.step (c : CPU) : Option CPU := do
  let (opcode, c1) ← c.fetch_byte
  let instruction := decode opcode
  let cycles_used := instruction.cycles
  let c2 ← c1.execute instruction
  pure { c2 with cycles := c2.cycles + cycles_used }

/-! ## Concrete states used to settle the claims -/

/-- A bus whose reset vector `0xFFFC/0xFFFD` holds `0xC000`
(`cartridge_rom[0x3FFC/0x3FFD]` after the NROM mirror). -/
def busResetVec : Bus :=
  { Bus.new with cartridge_rom := fun j => if j = 0x3FFD then 0xC0 else 0 }

/-- CPU over `busResetVec`. -/
def cpuResetVec : CPU := { CPU.new with bus := busResetVec }

/-- A 32 KB PRG image: lower 16 KB bank all `0xAA`, upper bank all `0xBB`. -/
def prgImage32k : List Nat :=
  List.replicate 0x4000 0xAA ++ List.replicate 0x4000 0xBB

/-- CPU state whose next byte is the undefined opcode `0x02` (at PC `0`,
stored in RAM). -/
def cpuUnknownOp : CPU :=
  { CPU.new with program_counter := 0, bus := Bus.new.mem_write 0 0x02 }

/-- A bus whose NMI vector `0xFFFA/0xFFFB` holds `0x9000` and whose IRQ
vector `0xFFFE/0xFFFF` holds `0x8000`. -/
def busNmiVec : Bus :=
  { Bus.new with
    cartridge_rom := fun j =>
      if j = 0x3FFB then 0x90 else if j = 0x3FFF then 0x80 else 0 }

/-- CPU at `PC = 0x0234` over `busNmiVec`. -/
def cpuNmi : CPU := { CPU.new with program_counter := 0x0234, bus := busNmiVec }

/-- A 16-byte iNES input: valid magic, v1 header, one declared 16 KB PRG
page, but no payload at all. -/
def truncatedInes : List Nat :=
  [0x4E, 0x45, 0x53, 0x1A, 0x01, 0x00, 0x00, 0x00, 0, 0, 0, 0, 0, 0, 0, 0]

/-- The spec's indirect-JMP page-wrap scenario, placed in RAM: instruction
`6C FF 10` at `0x0300`, `[0x10FF] = 0x34`, `[0x1000] = 0x12`,
`[0x1100] = 0x99` (the RAM mirror keeps these six cells distinct). -/
def busPageWrap : Bus :=
  (((((Bus.new.mem_write 0x300 0x6C).mem_write 0x301 0xFF).mem_write 0x302 0x10).mem_write
      0x10FF 0x34).mem_write 0x1000 0x12).mem_write 0x1100 0x99

/-- CPU at `PC = 0x0300` over `busPageWrap`. -/
def cpuPageWrap : CPU := { CPU.new with program_counter := 0x300, bus := busPageWrap }

/-- CPU whose PC sits at the very top of the address space. -/
def cpuTopPc : CPU := { CPU.new with program_counter := 0xFFFF }

/-! ## Claim theorems -/

/-- C1 (counterexample): with the reset vector `0xFFFC/0xFFFD` holding
`0xC000`, `reset` still sets the program counter to `0x8000`, so the claim
that the post-reset PC equals the 16-bit value read from the reset vector is
false. -/
theorem reset_ignores_reset_vector_cex :
    (CPU.reset cpuResetVec).program_counter = 0x8000
    ∧ cpuResetVec.bus.mem_read_u16 0xFFFC = 0xC000
    ∧ (0x8000 : Nat) ≠ 0xC000 := by
  refine ⟨rfl, by decide, by decide⟩

/-- C1 (amended): after `reset` on any CPU state, A, X and Y are 0, SP is
`0xFD`, P is `0x24`, and PC is the fixed constant `0x8000` — the reset
vector at `0xFFFC/0xFFFD` is never consulted. -/
theorem reset_sets_fixed_registers (c : CPU) :
    (CPU.reset c).accumulator = 0
    ∧ (CPU.reset c).register_x = 0
    ∧ (CPU.reset c).register_y = 0
    ∧ (CPU.reset c).stack_pointer = 0xFD
    ∧ (CPU.reset c).status = 0x24
    ∧ (CPU.reset c).program_counter = 0x8000 :=
  ⟨rfl, rfl, rfl, rfl, rfl, rfl⟩

/-- C9: `reset` touches only the six register fields: the cycle counter and
the entire bus (RAM and cartridge ROM) are unchanged, and a second reset
leaves the cycle counter where it was rather than restarting it at 0. -/
theorem reset_preserves_bus_and_cycles (c : CPU) :
    (CPU.reset c).cycles = c.cycles
    ∧ (CPU.reset c).bus = c.bus
    ∧ (CPU.reset (CPU.reset c)).cycles = c.cycles :=
  ⟨rfl, rfl, rfl⟩

/-- C10: a 16-bit bus read at `0xFFFF` takes its low byte from `0xFFFF` and
its high byte from `0x0000`: the pointer increment wraps around the top of
the 16-bit address space. -/
theorem mem_read_u16_wraps_at_top (b : Bus) :
    b.mem_read_u16 0xFFFF = (b.mem_read 0x0000 <<< 8) ||| b.mem_read 0xFFFF := by
  unfold Bus.mem_read_u16
  norm_num

/-- C8 (refuting the claim): the two-byte bus write and the instruction
fetch use UNCHECKED `u16` additions.  `mem_write_u16` at `0xFFFF` computes
`pos + 1 = 0x10000`, which overflows `u16` and aborts a debug build
(modelled as `none`), and `step` with `PC = 0xFFFF` aborts in `fetch_byte`
for the same reason — `step` is not total and the arithmetic is not
wrap-around. -/
theorem unchecked_u16_increment_aborts :
    (∀ (b : Bus) (d : Nat), b.mem_write_u16 0xFFFF d = none)
    ∧ CPU.step cpuTopPc = none :=
  ⟨fun _ _ => rfl, rfl⟩

/-- C5 (refuting the claim): on a well-formed 16-byte iNES header that
declares one 16 KB PRG page with no payload, `Rom::new` panics on the
out-of-range slice `raw[16..16400]` (modelled as `none`) instead of
returning a `Truncated` error value. -/
theorem rom_new_truncated_panics :
    Rom.new truncatedInes = none := by
  rfl

/-- Each flag value is the power of two of its bit index. -/
lemma Flags.toNat_eq_two_pow (f : Flags) : f.toNat = 2 ^ f.bitIdx := by
  cases f <;> rfl

/-- Flag bit indices are below 8. -/
lemma Flags.bitIdx_lt_eight (f : Flags) : f.bitIdx < 8 := by
  cases f <;> simp [Flags.bitIdx]

/-- Distinct flags occupy distinct bits. -/
lemma Flags.bitIdx_injective {f g : Flags} (h : f ≠ g) : f.bitIdx ≠ g.bitIdx := by
  cases f <;> cases g <;> simp_all [Flags.bitIdx]

/-- The status mask `0xFF` has every bit below 8 set. -/
lemma testBit_255 (i : Nat) : Nat.testBit 255 i = decide (i < 8) := by
  rw [show (255 : Nat) = 2 ^ 8 - 1 by norm_num, Nat.testBit_two_pow_sub_one]

/-- A single-bit mask test is a `testBit`. -/
lemma and_two_pow_ne_zero (x i : Nat) : (x &&& 2 ^ i ≠ 0) ↔ x.testBit i := by
  rw [Nat.and_two_pow]
  cases h : x.testBit i
  · simp
  · simp [pow_ne_zero i two_ne_zero]

/-- `get_flag` reads the flag's bit of the status byte. -/
lemma CPU.get_flag_eq_testBit (c : CPU) (f : Flags) :
    c.get_flag f = c.status.testBit f.bitIdx := by
  unfold CPU.get_flag
  rw [Flags.toNat_eq_two_pow]
  cases h : c.status.testBit f.bitIdx
  · simpa [h] using and_two_pow_ne_zero c.status f.bitIdx
  · simpa [h] using and_two_pow_ne_zero c.status f.bitIdx

/-- `set_flag` then `get_flag` of the same flag returns the written value. -/
lemma CPU.get_flag_set_flag_self (c : CPU) (f : Flags) (b : Bool) :
    (c.set_flag f b).get_flag f = b := by
  have h8 := Flags.bitIdx_lt_eight f
  cases b <;>
    simp [CPU.set_flag, CPU.get_flag_eq_testBit, Flags.toNat_eq_two_pow,
      Nat.testBit_or, Nat.testBit_and, Nat.testBit_xor, Nat.testBit_two_pow_self,
      testBit_255, h8]

/-- `set_flag` leaves every other flag unchanged. -/
lemma CPU.get_flag_set_flag_other (c : CPU) {f g : Flags} (h : f ≠ g) (b : Bool) :
    (c.set_flag f b).get_flag g = c.get_flag g := by
  have h8 := Flags.bitIdx_lt_eight g
  have hne := Flags.bitIdx_injective h
  cases b <;>
    simp [CPU.set_flag, CPU.get_flag_eq_testBit, Flags.toNat_eq_two_pow,
      Nat.testBit_or, Nat.testBit_and, Nat.testBit_xor,
      Nat.testBit_two_pow_of_ne hne, testBit_255, h8]

/-- C4 (evaluating the code at the failing input): `nmi` pushes PC high,
PC low and `P | 0x20` and sets I as the claim says, but it loads PC through
`load_irq_pc`, i.e. from the IRQ vector `0xFFFE/0xFFFF` (here `0x8000`),
not from the NMI vector `0xFFFA/0xFFFB` (here `0x9000`). -/
theorem nmi_uses_irq_vector :
    (CPU.nmi cpuNmi).program_counter = 0x8000
    ∧ cpuNmi.bus.mem_read_u16 0xFFFE = 0x8000
    ∧ cpuNmi.bus.mem_read_u16 0xFFFA = 0x9000
    ∧ (0x8000 : Nat) ≠ 0x9000
    ∧ (CPU.nmi cpuNmi).bus.mem_read 0x01FD = 0x02
    ∧ (CPU.nmi cpuNmi).bus.mem_read 0x01FC = 0x34
    ∧ (CPU.nmi cpuNmi).bus.mem_read 0x01FB = (cpuNmi.status ||| 0x20)
    ∧ (CPU.nmi cpuNmi).get_flag Flags.I = true := by
  refine ⟨rfl, by decide, by decide, by decide, by decide, by decide, by decide, by decide⟩


/-- Reading C after the C,V,Z,N flag-write chain of `adc`. -/
lemma get_flag_chain_c (c : CPU) (bc bv bz bn : Bool) :
    ((((c.set_flag Flags.C bc).set_flag Flags.V bv).set_flag Flags.Z bz).set_flag
        Flags.N bn).get_flag Flags.C = bc := by
  rw [CPU.get_flag_set_flag_other _ (show Flags.N ≠ Flags.C by decide),
      CPU.get_flag_set_flag_other _ (show Flags.Z ≠ Flags.C by decide),
      CPU.get_flag_set_flag_other _ (show Flags.V ≠ Flags.C by decide),
      CPU.get_flag_set_flag_self]

/-- Reading V after the C,V,Z,N flag-write chain of `adc`. -/
lemma get_flag_chain_v (c : CPU) (bc bv bz bn : Bool) :
    ((((c.set_flag Flags.C bc).set_flag Flags.V bv).set_flag Flags.Z bz).set_flag
        Flags.N bn).get_flag Flags.V = bv := by
  rw [CPU.get_flag_set_flag_other _ (show Flags.N ≠ Flags.V by decide),
      CPU.get_flag_set_flag_other _ (show Flags.Z ≠ Flags.V by decide),
      CPU.get_flag_set_flag_self]

/-- Reading Z after the C,V,Z,N flag-write chain of `adc`. -/
lemma get_flag_chain_z (c : CPU) (bc bv bz bn : Bool) :
    ((((c.set_flag Flags.C bc).set_flag Flags.V bv).set_flag Flags.Z bz).set_flag
        Flags.N bn).get_flag Flags.Z = bz := by
  rw [CPU.get_flag_set_flag_other _ (show Flags.N ≠ Flags.Z by decide),
      CPU.get_flag_set_flag_self]

/-- Reading N after the C,V,Z,N flag-write chain of `adc`. -/
lemma get_flag_chain_n (c : CPU) (bc bv bz bn : Bool) :
    ((((c.set_flag Flags.C bc).set_flag Flags.V bv).set_flag Flags.Z bz).set_flag
        Flags.N bn).get_flag Flags.N = bn := by
  rw [CPU.get_flag_set_flag_self]

/-- C7: for every machine state and byte-valued accumulator `a` and
operand `b`, after `adc` the pair `{A, C}` read as an unsigned 9-bit number
equals `a + b + cin`; V is set iff `a` and `b` share a sign bit and the
8-bit result has the opposite sign bit; Z and N reflect the 8-bit result
(`execute` assigns the returned value to the accumulator). -/
theorem adc_full_spec (c : CPU) (a b : Nat) (ha : a < 256) (hb : b < 256) :
    ((c.adc b a).1 + (if (c.adc b a).2.get_flag Flags.C then 256 else 0)
        = a + b + (if c.get_flag Flags.C then 1 else 0))
    ∧ ((c.adc b a).2.get_flag Flags.V = true ↔
        (a.testBit 7 = b.testBit 7 ∧ ¬ (c.adc b a).1.testBit 7 = a.testBit 7))
    ∧ ((c.adc b a).2.get_flag Flags.Z = true ↔ (c.adc b a).1 = 0)
    ∧ ((c.adc b a).2.get_flag Flags.N = (c.adc b a).1.testBit 7) := by
  simp only [CPU.adc, CPU.set_carry, CPU.set_overflow, CPU.set_zn]
  simp only [get_flag_chain_c, get_flag_chain_v, get_flag_chain_z, get_flag_chain_n]
  generalize hcg : (if c.get_flag Flags.C = true then (1 : Nat) else 0) = cin
  have hcin : cin ≤ 1 := by rw [← hcg]; split <;> omega
  refine ⟨?_, ?_, ?_, ?_⟩
  · simp only [decide_eq_true_eq]
    split <;> omega
  · rw [decide_eq_true_eq, show (0x80 : Nat) = 2 ^ 7 by norm_num, and_two_pow_ne_zero]
    simp only [Nat.testBit_and, Nat.testBit_xor]
    cases hA : a.testBit 7 <;> cases hB : b.testBit 7 <;>
      cases hR : ((a + b + cin) % 0x100).testBit 7 <;> simp
  · simp
  · rw [show (0x80 : Nat) = 2 ^ 7 by norm_num]
    cases hR : ((a + b + cin) % 0x100).testBit 7
    · exact decide_eq_false fun hcon => by
        have hr := (and_two_pow_ne_zero _ 7).mp hcon
        rw [hR] at hr
        exact absurd hr (by decide)
    · exact decide_eq_true ((and_two_pow_ne_zero _ 7).mpr (by rw [hR]))

/-- C7 witness: `adc_full_spec` applied at the spec scenario `A = 0x50`,
operand `0x50`, carry clear (`CPU.new` has `P = 0x24`). -/
theorem adc_full_spec_witness :
    ((0x50 : Nat) < 256 ∧ (0x50 : Nat) < 256)
    ∧ (((CPU.new.adc 0x50 0x50).1
          + (if (CPU.new.adc 0x50 0x50).2.get_flag Flags.C then 256 else 0)
        = 0x50 + 0x50 + (if CPU.new.get_flag Flags.C then 1 else 0))
      ∧ ((CPU.new.adc 0x50 0x50).2.get_flag Flags.V = true ↔
          ((0x50 : Nat).testBit 7 = (0x50 : Nat).testBit 7
            ∧ ¬ (CPU.new.adc 0x50 0x50).1.testBit 7 = (0x50 : Nat).testBit 7))
      ∧ ((CPU.new.adc 0x50 0x50).2.get_flag Flags.Z = true ↔ (CPU.new.adc 0x50 0x50).1 = 0)
      ∧ ((CPU.new.adc 0x50 0x50).2.get_flag Flags.N = (CPU.new.adc 0x50 0x50).1.testBit 7)) :=
  ⟨⟨by decide, by decide⟩, adc_full_spec CPU.new 0x50 0x50 (by decide) (by decide)⟩


/-- C3 (amended): when the byte at PC decodes to the table's fallback entry
(`Unknown`, with `Indirect` addressing and 0 cycles — every byte outside the
151 official opcodes), `step` leaves every register, flag, memory cell and
the cycle counter unchanged, but advances PC by 3: one byte for the opcode
fetch plus the two pointer bytes consumed by the spurious `Indirect`
addressing mode. -/
theorem step_unknown_is_three_byte_nop (c : CPU)
    (hd : decode (c.bus.mem_read c.program_counter)
        = Instruction.mk Opcode.Unknown AddressingMode.Indirect 0)
    (hpc : c.program_counter + 3 ≤ 0xFFFF) :
    CPU.step c = some { c with program_counter := c.program_counter + 3 } := by
  have h1 : c.program_counter + 1 ≤ 0xFFFF := by omega
  have h2 : c.program_counter + 1 + 2 ≤ 0xFFFF := by omega
  simp only [CPU.step, CPU.fetch_byte, h1, if_true, Option.bind_eq_bind, Option.some_bind, hd]
  simp only [CPU.execute, CPU.resolve_addr, CPU.fetch_word, h2, if_true,
    Option.bind_eq_bind, Option.some_bind]
  split <;> simp [Nat.add_assoc]

/-- C3 witness: `step_unknown_is_three_byte_nop` applied to the concrete
state whose next byte is the undefined opcode `0x02`. -/
theorem step_unknown_is_three_byte_nop_witness :
    (decode (cpuUnknownOp.bus.mem_read cpuUnknownOp.program_counter)
        = Instruction.mk Opcode.Unknown AddressingMode.Indirect 0
      ∧ cpuUnknownOp.program_counter + 3 ≤ 0xFFFF)
    ∧ CPU.step cpuUnknownOp
        = some { cpuUnknownOp with program_counter := cpuUnknownOp.program_counter + 3 } :=
  ⟨⟨by decide, by decide⟩,
    step_unknown_is_three_byte_nop cpuUnknownOp (by decide) (by decide)⟩

/-- C3 (counterexample): on the undefined opcode `0x02` at `PC = 0`, `step`
leaves the cycle counter at 0 but moves PC to 3, not to `0 + 1` as the
claim requires. -/
theorem step_unknown_pc_cex :
    (CPU.step cpuUnknownOp).map CPU.program_counter = some 3
    ∧ cpuUnknownOp.program_counter = 0
    ∧ (CPU.step cpuUnknownOp).map CPU.cycles = some 0
    ∧ (3 : Nat) ≠ 0 + 1 :=
  ⟨rfl, rfl, rfl, by decide⟩


/-- Characterisation of the `load_rom` loop at load base `0x8000`: cell `j`
of `cartridge_rom` holds ROM byte `j - i` when `j` lies in the written
window (and below the 32 KB array bound), and is untouched otherwise. -/
lemma load_rom_aux_spec (rom : List Nat) : ∀ (b : Bus) (i j : Nat),
    (Bus.load_rom_aux 0x8000 b rom i).cartridge_rom j
      = if i ≤ j ∧ j < i + rom.length ∧ j < 32768 then rom.getD (j - i) 0
        else b.cartridge_rom j := by
  induction rom with
  | nil =>
    intro b i j
    simp only [Bus.load_rom_aux, List.length_nil]
    rw [if_neg (by omega)]
  | cons byte rest ih =>
    intro b i j
    simp only [Bus.load_rom_aux, List.length_cons, le_refl, if_true, Nat.add_sub_cancel_left]
    rw [ih]
    by_cases hA : i + 1 ≤ j ∧ j < i + 1 + rest.length ∧ j < 32768
    · rw [if_pos hA, if_pos (by omega)]
      have hji : j - i = (j - (i + 1)) + 1 := by omega
      rw [hji, List.getD_cons_succ]
    · rw [if_neg hA]
      by_cases h32 : i < 32768
      · rw [if_pos h32]
        show (if j = i then byte else b.cartridge_rom j) = _
        by_cases hji : j = i
        · rw [if_pos hji, if_pos (by omega)]
          subst hji
          simp
        · rw [if_neg hji, if_neg (by omega)]
      · rw [if_neg h32, if_neg (by omega)]

/-- `load_rom` at `0x8000` copies ROM byte `j` into `cartridge_rom[j]` for
`j` below both the image length and 32768. -/
lemma load_rom_cartridge (rom : List Nat) (b : Bus) (j : Nat) :
    (b.load_rom rom 0x8000).cartridge_rom j
      = if j < rom.length ∧ j < 32768 then rom.getD j 0 else b.cartridge_rom j := by
  rw [Bus.load_rom, load_rom_aux_spec]
  by_cases h : j < rom.length ∧ j < 32768
  · rw [if_pos (by omega), if_pos h]
    simp
  · rw [if_neg (by omega), if_neg h]

/-- C2 (amended): for every loaded PRG image of size `0x4000` or `0x8000`
and every `addr` in `0x8000..=0xFFFF`, the bus read returns the PRG byte at
offset `(addr - 0x8000) mod 0x4000` — the 16 KB mirror is applied
regardless of image size, so a 32 KB image's upper bank is never read. -/
theorem prg_read_mirrors_16k (rom : List Nat) (addr : Nat)
    (h1 : 0x8000 ≤ addr) (h2 : addr ≤ 0xFFFF)
    (hlen : rom.length = 0x4000 ∨ rom.length = 0x8000) :
    (Bus.new.load_rom rom 0x8000).mem_read addr
      = rom.getD ((addr - 0x8000) % 0x4000) 0 := by
  rw [Bus.mem_read, if_neg (by omega), if_neg (by omega), if_pos (by omega)]
  rw [load_rom_cartridge, if_pos (by constructor <;> omega)]

/-- C2 witness: `prg_read_mirrors_16k` applied to the concrete 32 KB image
at address `0xC000`. -/
theorem prg_read_mirrors_16k_witness :
    (0x8000 ≤ 0xC000 ∧ 0xC000 ≤ 0xFFFF
      ∧ (prgImage32k.length = 0x4000 ∨ prgImage32k.length = 0x8000))
    ∧ (Bus.new.load_rom prgImage32k 0x8000).mem_read 0xC000
        = prgImage32k.getD ((0xC000 - 0x8000) % 0x4000) 0 := by
  have hlen : prgImage32k.length = 0x8000 := by
    rw [prgImage32k, List.length_append, List.length_replicate, List.length_replicate]
  exact ⟨⟨by decide, by decide, Or.inr hlen⟩,
    prg_read_mirrors_16k prgImage32k 0xC000 (by decide) (by decide) (Or.inr hlen)⟩

/-- C2 (counterexample): with the 32 KB image whose lower bank is all
`0xAA` and upper bank all `0xBB` loaded, the bus read at `0xC000` returns
`0xAA` (the lower bank), not the upper-bank byte
`rom[(0xC000 - 0x8000) mod 0x8000] = 0xBB` the claim requires. -/
theorem prg_mirror_32k_upper_bank_cex :
    (Bus.new.load_rom prgImage32k 0x8000).mem_read 0xC000 = 0xAA
    ∧ prgImage32k.getD ((0xC000 - 0x8000) % prgImage32k.length) 0 = 0xBB
    ∧ (0xAA : Nat) ≠ 0xBB := by
  have hrep : (List.replicate 0x4000 (0xAA : Nat)).length = 0x4000 :=
    List.length_replicate 0x4000 0xAA
  have hlen32 : prgImage32k.length = 32768 := by
    rw [prgImage32k, List.length_append, hrep, List.length_replicate]
  refine ⟨?_, ?_, by decide⟩
  · rw [Bus.mem_read, if_neg (by omega), if_neg (by omega), if_pos (by omega)]
    rw [load_rom_cartridge, if_pos (by omega)]
    rw [show (0xC000 - 0x8000) % 0x4000 = 0 from by norm_num]
    rw [prgImage32k, List.getD_eq_getElem?_getD,
      List.getElem?_append_left (by rw [hrep]; norm_num),
      List.getElem?_replicate_of_lt (by norm_num)]
    rfl
  · rw [hlen32, show (0xC000 - 0x8000) % 32768 = 16384 from by norm_num]
    rw [prgImage32k, List.getD_eq_getElem?_getD,
      List.getElem?_append_right (by rw [hrep])]
    rw [show 16384 - (List.replicate 0x4000 (0xAA : Nat)).length = 0 from by rw [hrep]]
    rw [List.getElem?_replicate_of_lt (by norm_num)]
    rfl


/-- C6: executing `JMP` indirect (opcode `0x6C`) with a pointer whose low
byte is `0xFF` sets PC from the low byte read at the pointer and the high
byte read at `ptr & 0xFF00` — the same page, not the next one — and costs
5 cycles. -/
theorem jmp_indirect_pagewrap (c : CPU)
    (hop : c.bus.mem_read c.program_counter = 0x6C)
    (hpc : c.program_counter + 3 ≤ 0xFFFF)
    (hlo : c.bus.mem_read_u16 (c.program_counter + 1) &&& 0xFF = 0xFF) :
    CPU.step c = some { c with
      program_counter :=
        (c.bus.mem_read ((c.bus.mem_read_u16 (c.program_counter + 1)) &&& 0xFF00) <<< 8)
          ||| c.bus.mem_read (c.bus.mem_read_u16 (c.program_counter + 1)),
      cycles := c.cycles + 5 } := by
  have h1 : c.program_counter + 1 ≤ 0xFFFF := by omega
  have h2 : c.program_counter + 1 + 2 ≤ 0xFFFF := by omega
  have hdec : decode 0x6C = Instruction.mk Opcode.JMP AddressingMode.Indirect 5 := rfl
  simp only [CPU.step, CPU.fetch_byte, h1, if_true, Option.bind_eq_bind, Option.some_bind,
    hop, hdec]
  simp only [CPU.execute, CPU.resolve_addr, CPU.fetch_word, CPU.mem_read, h2, if_true,
    Option.bind_eq_bind, Option.some_bind, Option.pure_def, hlo]

/-- C6 witness: `jmp_indirect_pagewrap` on the spec scenario
(`[0x10FF] = 0x34`, `[0x1000] = 0x12`, `[0x1100] = 0x99`, instruction
`6C FF 10`): PC becomes `0x1234`, not `0x9934`. -/
theorem jmp_indirect_pagewrap_witness :
    (cpuPageWrap.bus.mem_read cpuPageWrap.program_counter = 0x6C
      ∧ cpuPageWrap.program_counter + 3 ≤ 0xFFFF
      ∧ cpuPageWrap.bus.mem_read_u16 (cpuPageWrap.program_counter + 1) &&& 0xFF = 0xFF)
    ∧ (CPU.step cpuPageWrap).map CPU.program_counter = some 0x1234
    ∧ (0x1234 : Nat) ≠ 0x9934 := by
  refine ⟨⟨by decide, by decide, by decide⟩, ?_, by decide⟩
  rw [jmp_indirect_pagewrap cpuPageWrap (by decide) (by decide) (by decide)]
  rfl

end Nurst
